import Mathlib

/-!
Shallow embedding, in Lean 4, of the idempotency / claim layer of
`src/main.py` of the pr-reviewer repository, together with theorems that
settle the specification claims about it.

Conventions used throughout:
* Python strings are Lean `String`; slicing `s[:n]` is by characters.
* The Google-Cloud-Storage bucket holds, for one `WorkKey = (pr_id,
  commit_sha)`, a single marker blob; its state is `Store := Option
  BlobContent` (absent, or present with valid-JSON / corrupted content).
* A read of an existing blob can fail with a storage exception; that
  environment choice is an explicit `readFault : Bool` argument.
* Wall-clock timestamp fields of markers (`claimed_at`, `processed_at`,
  `failed_at`, `last_attempt_at`) are omitted: no control flow reads them.
-/

namespace PrReviewer

/-- Character-list test: the first list is a leading segment of the second.
Building block for Python substring containment. -/
def listPrefixEq : List Char → List Char → Bool
  | [], _ => true
  | _ :: _, [] => false
  | a :: as, b :: bs => a == b && listPrefixEq as bs

/-- Character-list substring test: the first list occurs contiguously
somewhere in the second.  This is the semantics of Python `pat in hay`. -/
def listHasSub (pat : List Char) : List Char → Bool
  | [] => listPrefixEq pat []
  | c :: rest => listPrefixEq pat (c :: rest) || listHasSub pat rest

/-- Python `pat in hay` on strings. -/
def pyIn (pat hay : String) : Bool :=
  listHasSub pat.data hay.data

/-- Python `s[:n]`: keep the first `n` characters. -/
def pySlice (n : Nat) (s : String) : String :=
  String.mk (s.data.take n)

/-- `src/main.py`, `get_max_severity` (lines 602-615): highest severity
marker token found in the review text, defaulting to `"info"`. -/
def get_max_severity (review : String) : String :=
  if pyIn "**Severity:** blocking" review then "blocking"
  else if pyIn "**Severity:** warning" review then "warning"
  else "info"

theorem listPrefixEq_iff (p l : List Char) :
    listPrefixEq p l = true ↔ ∃ r, l = p ++ r := by
  induction p generalizing l with
  | nil => simp [listPrefixEq]
  | cons a as ih =>
    cases l with
    | nil => simp [listPrefixEq]
    | cons b bs =>
      simp only [listPrefixEq, Bool.and_eq_true, beq_iff_eq, ih,
        List.cons_append, List.cons.injEq]
      constructor
      · rintro ⟨rfl, r, rfl⟩
        exact ⟨r, rfl, rfl⟩
      · rintro ⟨r, rfl, rfl⟩
        exact ⟨rfl, r, rfl⟩

theorem listHasSub_iff (p l : List Char) :
    listHasSub p l = true ↔ ∃ s t, l = s ++ p ++ t := by
  induction l with
  | nil =>
    simp only [listHasSub, listPrefixEq_iff]
    constructor
    · rintro ⟨r, hr⟩
      exact ⟨[], r, by simpa using hr⟩
    · rintro ⟨s, t, h⟩
      exact ⟨t, by
        rcases List.append_eq_nil.mp h.symm with ⟨h1, h2⟩
        rcases List.append_eq_nil.mp h1 with ⟨rfl, rfl⟩
        simpa using h2.symm⟩
  | cons c rest ih =>
    simp only [listHasSub, Bool.or_eq_true, listPrefixEq_iff, ih]
    constructor
    · rintro (⟨r, hr⟩ | ⟨s, t, rfl⟩)
      · exact ⟨[], r, by simpa using hr⟩
      · exact ⟨c :: s, t, by simp⟩
    · rintro ⟨s, t, h⟩
      cases s with
      | nil =>
        left
        exact ⟨t, by simpa using h⟩
      | cons x xs =>
        right
        refine ⟨xs, t, ?_⟩
        have := h
        simp only [List.cons_append] at this
        exact (List.cons.injEq .. ▸ this).2

/-- Substring containment of strings, stated mathematically (an explicit
decomposition of the character data). -/
def HasTok (s tok : String) : Prop :=
  ∃ l r, s.data = l ++ tok.data ++ r

theorem pyIn_iff (pat hay : String) :
    pyIn pat hay = true ↔ HasTok hay pat := by
  unfold pyIn HasTok
  exact listHasSub_iff pat.data hay.data

/-- Maximum number of retry attempts before giving up
(`src/main.py` line 380). -/
def MAX_RETRY_ATTEMPTS : Nat := 3

/-- JSON idempotency-marker content, as written by the four marker
functions of `src/main.py`.  Fields a given write does not emit are
`none`; timestamp fields are omitted (never read by any control flow). -/
structure Marker where
  prId : Int
  commitSha : String
  status : String
  retryCount : Option Nat
  lastError : Option String
  errorField : Option String
  reason : Option String
  maxSeverity : Option String
  commented : Option Bool
deriving DecidableEq, Repr

/-- Python `marker_data.get("retry_count", 0)`. -/
def Marker.getRetryCount (m : Marker) : Nat :=
  m.retryCount.getD 0

/-- Content of the marker blob when it exists: either parseable JSON or
bytes that make `json.loads` raise `JSONDecodeError`. -/
inductive BlobContent
  | valid (m : Marker)
  | invalid
deriving DecidableEq, Repr

/-- State of the single marker blob for one WorkKey. -/
abbrev Store := Option BlobContent

/-- The blob key built by `check_and_claim_processing` (line 406):
`f"idempotency/pr-{pr_id}-{commit_sha}.json"`. -/
def markerKeyClaim (prId : Int) (sha : String) : String :=
  "idempotency/pr-" ++ toString prId ++ "-" ++ sha ++ ".json"

/-- The blob key built by `update_marker_completed` (line 478). -/
def markerKeyCompleted (prId : Int) (sha : String) : String :=
  "idempotency/pr-" ++ toString prId ++ "-" ++ sha ++ ".json"

/-- The blob key built by `update_marker_for_retry` (line 516). -/
def markerKeyRetry (prId : Int) (sha : String) : String :=
  "idempotency/pr-" ++ toString prId ++ "-" ++ sha ++ ".json"

/-- The blob key built by `update_marker_failed` (line 580). -/
def markerKeyFailed (prId : Int) (sha : String) : String :=
  "idempotency/pr-" ++ toString prId ++ "-" ++ sha ++ ".json"

/-- The blob key built by `process_dead_letter_queue` (line 1459). -/
def markerKeyDlq (prId : Int) (sha : String) : String :=
  "idempotency/pr-" ++ toString prId ++ "-" ++ sha ++ ".json"

/-- The marker written by the initial claim (lines 441-447):
`status="processing"`, `retry_count=0`. -/
def initialMarker (prId : Int) (sha : String) : Marker :=
  { prId := prId, commitSha := sha, status := "processing",
    retryCount := some 0, lastError := none, errorField := none,
    reason := none, maxSeverity := none, commented := none }

/-- The marker written by `update_marker_completed` (lines 480-487);
note it carries no `retry_count` field. -/
def completedMarker (prId : Int) (sha : String) (sev : String)
    (commented : Bool) : Marker :=
  { prId := prId, commitSha := sha, status := "completed",
    retryCount := none, lastError := none, errorField := none,
    reason := none, maxSeverity := some sev, commented := some commented }

/-- The marker written by the exhausted branch of `update_marker_for_retry`
(lines 532-539). -/
def retryFailedMarker (prId : Int) (sha : String) (rc : Nat)
    (errMsg : String) : Marker :=
  { prId := prId, commitSha := sha, status := "failed",
    retryCount := some rc, lastError := some (pySlice 500 errMsg),
    errorField := none, reason := none, maxSeverity := none,
    commented := none }

/-- The marker written by the still-retrying branch of
`update_marker_for_retry` (lines 548-555). -/
def retryProcessingMarker (prId : Int) (sha : String) (rc : Nat)
    (errMsg : String) : Marker :=
  { prId := prId, commitSha := sha, status := "processing",
    retryCount := some rc, lastError := some (pySlice 500 errMsg),
    errorField := none, reason := none, maxSeverity := none,
    commented := none }

/-- The marker written by `update_marker_failed` (lines 582-589):
`status="failed"`, `reason="non_retryable_error"`, no `retry_count`. -/
def nonRetryableFailedMarker (prId : Int) (sha : String)
    (errMsg : String) : Marker :=
  { prId := prId, commitSha := sha, status := "failed",
    retryCount := none, lastError := none,
    errorField := some (pySlice 500 errMsg),
    reason := some "non_retryable_error", maxSeverity := none,
    commented := none }

/-- GCS conditional write with `if_generation_match=0` (lines 450-454):
succeeds only when the blob does not exist; otherwise raises
`PreconditionFailed` and leaves the store unchanged.  This single
operation is atomic on the store. -/
def createIfAbsent (s : Store) (m : Marker) : Except Unit Unit × Store :=
  match s with
  | none => (Except.ok (), some (BlobContent.valid m))
  | some c => (Except.error (), some c)

/-- Result of one `check_and_claim_processing` call: the returned Bool,
the store afterwards, and how many conditional-create requests were
issued during the call. -/
structure ClaimStep where
  result : Bool
  store : Store
  createAttempts : Nat
deriving DecidableEq, Repr

/-- The tail of `check_and_claim_processing` (lines 439-459): one
conditional create of the fresh `processing, retry_count=0` marker;
`PreconditionFailed` is mapped to `return False`. -/
def claimCreatePhase (prId : Int) (sha : String) (s : Store) : ClaimStep :=
  match createIfAbsent s (initialMarker prId sha) with
  | (Except.ok _, s2) => { result := true, store := s2, createAttempts := 1 }
  | (Except.error _, s2) => { result := false, store := s2, createAttempts := 1 }

/-- `src/main.py`, `check_and_claim_processing` (lines 383-459).
`readFault = true` means the blob existed but reading it raised a
storage exception other than `JSONDecodeError` (the `except Exception`
arm at lines 435-437, which returns `True`). -/
def check_and_claim_processing (prId : Int) (sha : String) (s : Store)
    (readFault : Bool) : ClaimStep :=
  match s with
  | some content =>
    if readFault then
      { result := true, store := some content, createAttempts := 0 }
    else
      match content with
      | BlobContent.invalid =>
        claimCreatePhase prId sha (some BlobContent.invalid)
      | BlobContent.valid m =>
        if m.status = "completed" then
          { result := false, store := some (BlobContent.valid m),
            createAttempts := 0 }
        else if m.status = "failed" then
          { result := false, store := some (BlobContent.valid m),
            createAttempts := 0 }
        else if m.status = "processing" then
          if m.getRetryCount ≥ MAX_RETRY_ATTEMPTS then
            { result := false, store := some (BlobContent.valid m),
              createAttempts := 0 }
          else
            { result := true, store := some (BlobContent.valid m),
              createAttempts := 0 }
        else
          claimCreatePhase prId sha (some (BlobContent.valid m))
  | none => claimCreatePhase prId sha none

/-- `src/main.py`, `update_marker_completed` (lines 462-493):
unconditional overwrite with the completed marker. -/
def update_marker_completed (prId : Int) (sha : String) (_s : Store)
    (sev : String) (commented : Bool) : Store :=
  some (BlobContent.valid (completedMarker prId sha sev commented))

/-- `src/main.py`, `update_marker_for_retry` (lines 496-561).
`readFault = true` means the existence check or read raised (the
`except Exception` arm at lines 524-525, which keeps `retry_count = 0`);
a `BlobContent.invalid` blob raises `JSONDecodeError`, also caught by
that arm.  Returns the Bool result and the store afterwards. -/
def update_marker_for_retry (prId : Int) (sha : String) (s : Store)
    (readFault : Bool) (errMsg : String) : Bool × Store :=
  let rc0 : Nat :=
    if readFault then 0
    else
      match s with
      | some (BlobContent.valid m) => m.getRetryCount
      | some BlobContent.invalid => 0
      | none => 0
  let rc := rc0 + 1
  if rc ≥ MAX_RETRY_ATTEMPTS then
    (false, some (BlobContent.valid (retryFailedMarker prId sha rc errMsg)))
  else
    (true, some (BlobContent.valid (retryProcessingMarker prId sha rc errMsg)))

/-- `src/main.py`, `update_marker_failed` (lines 564-595):
unconditional overwrite with the non-retryable failed marker. -/
def update_marker_failed (prId : Int) (sha : String) (_s : Store)
    (errMsg : String) : Store :=
  some (BlobContent.valid (nonRetryableFailedMarker prId sha errMsg))

/-- How one pipeline run after a successful claim ends, as seen by the
`try`/`except` structure of `review_pr_pubsub` (lines 1184-1243):
no diffs, success, `requests.HTTPError` with a status code, or any
other exception (`f"{type(e).__name__}: {str(e)}"` is its message). -/
inductive RunResult
  | noDiffs
  | success (maxSeverity : String) (commented : Bool)
  | httpError (code : Nat)
  | otherError (excName : String) (excMsg : String)
deriving DecidableEq, Repr

/-- `status_code in {401, 403, 404}` (line 1214). -/
def nonRetryableCode (code : Nat) : Bool :=
  code = 401 || code = 403 || code = 404

/-- `f"Azure DevOps API error: {status_code}"` (line 1209). -/
def httpErrorMsg (code : Nat) : String :=
  "Azure DevOps API error: " ++ toString code

/-- `f"{type(e).__name__}: {str(e)}"` (line 1233). -/
def otherErrorMsg (excName excMsg : String) : String :=
  excName ++ ": " ++ excMsg

/-- How `review_pr_pubsub` hands control back to the Pub/Sub transport:
a normal return acknowledges the delivery; re-raising makes the
transport redeliver (and, at its delivery-attempt limit, route the
message to the dead-letter topic). -/
inductive HandlerOutcome
  | ackReturn
  | reraise
deriving DecidableEq, Repr

/-- Claim-relevant side effects of one `review_pr_pubsub` delivery, in
order.  `callPipeline` stands for running `process_pr_review` (which is
what invokes the Analyzer, `call_gemini`). -/
inductive Effect
  | callPipeline
  | markerCompleted
  | markerRetry
  | markerFailed
deriving DecidableEq, Repr

/-- Environment choices for one delivery: whether the marker reads
inside `check_and_claim_processing` and inside `update_marker_for_retry`
hit a storage fault, and how the pipeline run ends. -/
structure DeliveryEnv where
  gateReadFault : Bool
  retryReadFault : Bool
  run : RunResult
deriving DecidableEq, Repr

/-- `src/main.py`, `review_pr_pubsub` (lines 1081-1243), from the point
where the message is parsed, the PR metadata fetched and `commit_sha`
known.  Returns the outcome signalled to the transport, the marker
store afterwards, and the claim-relevant effects in order.
Paths, matching the source:
* claim gate returns `False` → `return` at line 1182, nothing run;
* no diffs → `update_marker_completed(..., "info", False)`, return;
* success → `process_pr_review` then `update_marker_completed`, return;
* `HTTPError` with code in `{401,403,404}` → `update_marker_failed`
  then `raise` (line 1221);
* any other failure → `update_marker_for_retry`; `return` if it said
  stop, else `raise` (lines 1223-1243). -/
def review_pr_pubsub (prId : Int) (sha : String) (s : Store)
    (env : DeliveryEnv) : HandlerOutcome × Store × List Effect :=
  let gate := check_and_claim_processing prId sha s env.gateReadFault
  if gate.result = false then
    (HandlerOutcome.ackReturn, gate.store, [])
  else
    match env.run with
    | RunResult.noDiffs =>
      (HandlerOutcome.ackReturn,
        update_marker_completed prId sha gate.store "info" false,
        [Effect.markerCompleted])
    | RunResult.success sev commented =>
      (HandlerOutcome.ackReturn,
        update_marker_completed prId sha gate.store sev commented,
        [Effect.callPipeline, Effect.markerCompleted])
    | RunResult.httpError code =>
      if nonRetryableCode code then
        (HandlerOutcome.reraise,
          update_marker_failed prId sha gate.store (httpErrorMsg code),
          [Effect.callPipeline, Effect.markerFailed])
      else
        let upd := update_marker_for_retry prId sha gate.store
          env.retryReadFault (httpErrorMsg code)
        (if upd.1 then HandlerOutcome.reraise else HandlerOutcome.ackReturn,
          upd.2, [Effect.callPipeline, Effect.markerRetry])
    | RunResult.otherError excName excMsg =>
      let upd := update_marker_for_retry prId sha gate.store
        env.retryReadFault (otherErrorMsg excName excMsg)
      (if upd.1 then HandlerOutcome.reraise else HandlerOutcome.ackReturn,
        upd.2, [Effect.callPipeline, Effect.markerRetry])

/-- The marker store after one delivery. -/
def deliveryStore (prId : Int) (sha : String) (s : Store)
    (env : DeliveryEnv) : Store :=
  (review_pr_pubsub prId sha s env).2.1

/-- All marker-store states along a sequence of deliveries, starting
state included. -/
def traceStores (prId : Int) (sha : String) (s : Store) :
    List DeliveryEnv → List Store
  | [] => [s]
  | e :: es => s :: traceStores prId sha (deliveryStore prId sha s e) es

/-- The `retry_count` field stored in the blob, when the blob exists,
parses, and carries the field. -/
def storedRetryCount (s : Store) : Option Nat :=
  match s with
  | some (BlobContent.valid m) => m.retryCount
  | _ => none

/-- Comparison used to express "retry_count never decreases from one
write to the next": trivially true unless both sides carry the field. -/
def rcMono : Option Nat → Option Nat → Bool
  | some a, some b => a ≤ b
  | _, _ => true

/-- Serialisation of a creation race for one WorkKey: `n` concurrent
workers whose existence checks all saw "absent" each issue the
conditional create of `claimCreatePhase`; the store is atomic, so any
interleaving is a sequence of these atomic creates.  Returns each
worker's Bool result, in serialisation order, with the final store. -/
def racersRun (prId : Int) (sha : String) : Nat → Store → List Bool × Store
  | 0, s => ([], s)
  | n + 1, s =>
    let step := claimCreatePhase prId sha s
    let rest := racersRun prId sha n step.store
    (step.result :: rest.1, rest.2)

/-- One pulled dead-letter message together with the per-message
environment (`markerExists` at delete time; `publishResult` is the new
message id, or `none` when `publisher.publish(...).result()` raises). -/
structure DlqMsg where
  decodeOk : Bool
  prId : Option Int
  commitSha : Option String
  ackId : String
  messageId : String
  markerExists : Bool
  publishResult : Option String
deriving DecidableEq, Repr

/-- Python truthiness of the optional `pr_id` (line 1433, `if not pr_id`). -/
def pyTruthyInt : Option Int → Bool
  | none => false
  | some v => v != 0

/-- Python truthiness of the optional `commit_sha` (lines 1448, 1458). -/
def pyTruthyStr : Option String → Bool
  | none => false
  | some v => v != ""

/-- `commit_sha[:8] if commit_sha else None` (line 1448). -/
def sha8 (sha : Option String) : Option String :=
  match sha with
  | some v => if v != "" then some (pySlice 8 v) else none
  | none => none

/-- One entry of the `details` list built by `process_dead_letter_queue`
(error strings omitted: no control flow reads them). -/
inductive DlqDetail
  | skippedNoPrId
  | dryRunEntry (prId : Int) (sha8 : Option String)
  | republishedEntry (prId : Int) (sha8 : Option String) (newId : String)
  | failedEntry (prId : Option Int)
deriving DecidableEq, Repr

/-- A message republished to the main topic by the reconciliation job
(lines 1465-1471). -/
structure DlqPublished where
  prId : Int
  commitSha : Option String
  originalMessageId : String
deriving DecidableEq, Repr

/-- Accumulated observable outcome of the per-message loop of
`process_dead_letter_queue` (lines 1414-1499). -/
structure DlqState where
  republished : Nat
  failed : Nat
  details : List DlqDetail
  ackIds : List String
  deletedKeys : List String
  published : List DlqPublished
deriving DecidableEq, Repr

def DlqState.empty : DlqState :=
  { republished := 0, failed := 0, details := [], ackIds := [],
    deletedKeys := [], published := [] }

/-- Append-combination of loop contributions; the loop state is only
ever accumulated, never read back, so the run is the ordered
combination of per-message contributions. -/
def DlqState.comb (a b : DlqState) : DlqState :=
  { republished := a.republished + b.republished,
    failed := a.failed + b.failed,
    details := a.details ++ b.details,
    ackIds := a.ackIds ++ b.ackIds,
    deletedKeys := a.deletedKeys ++ b.deletedKeys,
    published := a.published ++ b.published }

/-- Contribution of one loop iteration of `process_dead_letter_queue`
(lines 1422-1499), matching the source branch for branch:
decode failure → `except` arm; missing/falsy `pr_id` → skip + ack;
`dry_run` → report + count + ack, no mutation; otherwise delete the
marker if present, then publish (a publish failure lands in the
`except` arm, after the delete already happened), then ack. -/
def dlqStepDelta (dryRun : Bool) (m : DlqMsg) : DlqState :=
  if m.decodeOk = false then
    { DlqState.empty with
        failed := 1
        details := [DlqDetail.failedEntry none] }
  else
    match m.prId with
    | none =>
      { DlqState.empty with
          failed := 1
          details := [DlqDetail.skippedNoPrId]
          ackIds := [m.ackId] }
    | some pid =>
      if pid = 0 then
        { DlqState.empty with
            failed := 1
            details := [DlqDetail.skippedNoPrId]
            ackIds := [m.ackId] }
      else if dryRun then
        { DlqState.empty with
            republished := 1
            details := [DlqDetail.dryRunEntry pid (sha8 m.commitSha)]
            ackIds := [m.ackId] }
      else
        let deletes :=
          match m.commitSha with
          | some sha =>
            if sha != "" && m.markerExists then [markerKeyDlq pid sha]
            else []
          | none => []
        match m.publishResult with
        | none =>
          { DlqState.empty with
              failed := 1
              details := [DlqDetail.failedEntry (some pid)]
              deletedKeys := deletes }
        | some newId =>
          { DlqState.empty with
              republished := 1
              details :=
                [DlqDetail.republishedEntry pid (sha8 m.commitSha) newId]
              ackIds := [m.ackId]
              deletedKeys := deletes
              published := [{ prId := pid, commitSha := m.commitSha, originalMessageId := m.messageId }] }

/-- The whole per-message loop. -/
def dlqRunLoop (dryRun : Bool) (msgs : List DlqMsg) : DlqState :=
  (msgs.map (dlqStepDelta dryRun)).foldr DlqState.comb DlqState.empty

/-- Ack ids actually sent to `subscriber.acknowledge`: the guard at
line 1502 is `if ack_ids and not dry_run`. -/
def dlqAckedIds (dryRun : Bool) (msgs : List DlqMsg) : List String :=
  let st := dlqRunLoop dryRun msgs
  if st.ackIds ≠ [] ∧ dryRun = false then st.ackIds else []

/-! ## Theorems settling the claims -/

/-- C7: `get_max_severity` is a total, deterministic function of the
review text with priority blocking > warning > info: text containing
the blocking marker token anywhere yields `"blocking"` (regardless of
also containing the warning token); text without the blocking token but
with the warning token yields `"warning"`; text with neither yields
`"info"`; the empty string yields `"info"`.  The final conjunct ties
the scan used by the code to genuine substring containment. -/
theorem c7_get_max_severity_priority (s : String) :
    (HasTok s "**Severity:** blocking" → get_max_severity s = "blocking")
    ∧ (¬ HasTok s "**Severity:** blocking" →
        HasTok s "**Severity:** warning" → get_max_severity s = "warning")
    ∧ (¬ HasTok s "**Severity:** blocking" →
        ¬ HasTok s "**Severity:** warning" → get_max_severity s = "info")
    ∧ get_max_severity "" = "info"
    ∧ (∀ pat : String, pyIn pat s = true ↔ HasTok s pat) := by
  refine ⟨?_, ?_, ?_, by decide, fun pat => pyIn_iff pat s⟩
  · intro hb
    have h1 : pyIn "**Severity:** blocking" s = true := (pyIn_iff _ _).mpr hb
    simp [get_max_severity, h1]
  · intro hb hw
    have h1 : pyIn "**Severity:** blocking" s = false := by
      cases h : pyIn "**Severity:** blocking" s
      · rfl
      · exact absurd ((pyIn_iff _ _).mp h) hb
    have h2 : pyIn "**Severity:** warning" s = true := (pyIn_iff _ _).mpr hw
    simp [get_max_severity, h1, h2]
  · intro hb hw
    have h1 : pyIn "**Severity:** blocking" s = false := by
      cases h : pyIn "**Severity:** blocking" s
      · rfl
      · exact absurd ((pyIn_iff _ _).mp h) hb
    have h2 : pyIn "**Severity:** warning" s = false := by
      cases h : pyIn "**Severity:** warning" s
      · rfl
      · exact absurd ((pyIn_iff _ _).mp h) hw
    simp [get_max_severity, h1, h2]

/-- Witness for C7 at a concrete review containing both tokens. -/
theorem c7_witness :
    HasTok "x **Severity:** blocking y **Severity:** warning"
      "**Severity:** blocking"
    ∧ get_max_severity "x **Severity:** blocking y **Severity:** warning"
      = "blocking" := by
  have h : pyIn "**Severity:** blocking"
      "x **Severity:** blocking y **Severity:** warning" = true := by decide
  have htok := (pyIn_iff _ _).mp h
  exact ⟨htok,
    (c7_get_max_severity_priority
      "x **Severity:** blocking y **Severity:** warning").1 htok⟩

/-- C10: a marker blob whose content is not valid JSON makes
`check_and_claim_processing` fall through to the conditional create,
which hits `PreconditionFailed` because the object exists, so the call
returns `False` and leaves the blob in place; once the blob is deleted
(Dead-Letter Reconciliation), the claim succeeds again. -/
theorem c10_corrupted_marker (pr : Int) (sha : String) :
    check_and_claim_processing pr sha (some BlobContent.invalid) false =
      { result := false, store := some BlobContent.invalid,
        createAttempts := 1 }
    ∧ createIfAbsent (some BlobContent.invalid) (initialMarker pr sha) =
        (Except.error (), some BlobContent.invalid)
    ∧ check_and_claim_processing pr sha none false =
        { result := true,
          store := some (BlobContent.valid (initialMarker pr sha)),
          createAttempts := 1 } :=
  ⟨rfl, rfl, rfl⟩

theorem racersRun_occupied (pr : Int) (sha : String) (c : BlobContent) :
    ∀ n : Nat, racersRun pr sha n (some c) = (List.replicate n false, some c) := by
  intro n
  induction n with
  | zero => rfl
  | succ k ih =>
    simp [racersRun, claimCreatePhase, createIfAbsent, ih, List.replicate_succ]

/-- C2: among concurrent creators of the marker of one WorkKey (all of
whose existence checks saw "absent"), exactly the first conditional
create in serialisation order succeeds, the store ends holding the
fresh `processing, retry_count=0` marker, and every loser observes
`PreconditionFailed` from its single create attempt and gets `False`;
the absent-marker path of `check_and_claim_processing` is exactly this
create phase. -/
theorem c2_create_race (pr : Int) (sha : String) (n : Nat) :
    (racersRun pr sha (n + 1) none).1 = true :: List.replicate n false
    ∧ (racersRun pr sha (n + 1) none).2 =
        some (BlobContent.valid (initialMarker pr sha))
    ∧ (∀ c : BlobContent, claimCreatePhase pr sha (some c) =
        { result := false, store := some c, createAttempts := 1 })
    ∧ check_and_claim_processing pr sha none false =
        claimCreatePhase pr sha none := by
  refine ⟨?_, ?_, fun c => rfl, rfl⟩
  · simp [racersRun, claimCreatePhase, createIfAbsent,
      racersRun_occupied pr sha (BlobContent.valid (initialMarker pr sha)) n]
  · simp [racersRun, claimCreatePhase, createIfAbsent,
      racersRun_occupied pr sha (BlobContent.valid (initialMarker pr sha)) n]

/-- C6 counterexample: a storage read fault on an existing marker is
not escalated.  `check_and_claim_processing` swallows it and returns
`True` — even when the marker says `completed` — and
`update_marker_for_retry` swallows it and proceeds with the retry count
restarted from 0 (it writes `retry_count = 1` over a marker that held
`retry_count = 2`). -/
theorem c6_counterexample :
    (check_and_claim_processing 1 "a"
        (some (BlobContent.valid (completedMarker 1 "a" "info" false)))
        true).result = true
    ∧ update_marker_for_retry 1 "a"
        (some (BlobContent.valid (retryProcessingMarker 1 "a" 2 "e")))
        true "e2" =
      (true, some (BlobContent.valid (retryProcessingMarker 1 "a" 1 "e2"))) :=
  ⟨rfl, rfl⟩

/-- C6 amended: read failures on an existing marker are swallowed, not
escalated: `check_and_claim_processing` returns `True` with no write
and no create attempt, and `update_marker_for_retry` proceeds with the
retry count defaulted to 0, writing a `processing` marker with
`retry_count = 1`. -/
theorem c6_read_faults_swallowed (pr : Int) (sha : String)
    (c : BlobContent) (msg : String) :
    check_and_claim_processing pr sha (some c) true =
      { result := true, store := some c, createAttempts := 0 }
    ∧ update_marker_for_retry pr sha (some c) true msg =
      (true, some (BlobContent.valid (retryProcessingMarker pr sha 1 msg))) :=
  ⟨rfl, rfl⟩

/-- C4 counterexample: on a non-retryable pipeline failure (HTTP 401
from the Work Source, fresh claim, commit SHA known) the async handler
does not acknowledge the delivery: it re-raises. -/
theorem c4_counterexample :
    (review_pr_pubsub 1 "a" none
        (⟨false, false, RunResult.httpError 401⟩ : DeliveryEnv)).1 ≠ HandlerOutcome.ackReturn
    ∧ (review_pr_pubsub 1 "a" none
        (⟨false, false, RunResult.httpError 401⟩ : DeliveryEnv)).1 = HandlerOutcome.reraise := by
  exact ⟨by decide, rfl⟩

/-- C4 amended: when the pipeline fails with HTTP 401/403/404 after a
successful claim, the marker is immediately overwritten to `failed`
with reason `"non_retryable_error"` and no retry-count bookkeeping
occurs, and the handler re-raises the error (the delivery is not
acknowledged; the transport's redelivery / dead-letter policy takes
over). -/
theorem c4_nonretryable_failure (pr : Int) (sha : String) (s : Store)
    (env : DeliveryEnv) (code : Nat)
    (henv : env = (⟨false, false, RunResult.httpError code⟩ : DeliveryEnv))
    (hcode : nonRetryableCode code = true)
    (hgate : (check_and_claim_processing pr sha s false).result = true) :
    review_pr_pubsub pr sha s env =
      (HandlerOutcome.reraise,
        some (BlobContent.valid
          (nonRetryableFailedMarker pr sha (httpErrorMsg code))),
        [Effect.callPipeline, Effect.markerFailed])
    ∧ Effect.markerRetry ∉ [Effect.callPipeline, Effect.markerFailed]
    ∧ HandlerOutcome.reraise ≠ HandlerOutcome.ackReturn := by
  subst henv
  refine ⟨?_, by decide, by decide⟩
  simp [review_pr_pubsub, hgate, hcode, update_marker_failed]

/-- Witness for C4 amended: fresh claim, HTTP 401. -/
theorem c4_witness :
    nonRetryableCode 401 = true
    ∧ (check_and_claim_processing 1 "a" none false).result = true
    ∧ review_pr_pubsub 1 "a" none
        (⟨false, false, RunResult.httpError 401⟩ : DeliveryEnv) =
      (HandlerOutcome.reraise,
        some (BlobContent.valid
          (nonRetryableFailedMarker 1 "a" (httpErrorMsg 401))),
        [Effect.callPipeline, Effect.markerFailed]) :=
  ⟨rfl, rfl,
    (c4_nonretryable_failure 1 "a" none _ 401 rfl rfl rfl).1⟩

/-- C1: on an existing parseable marker (read succeeding),
`check_and_claim_processing` returns `False` for status `"completed"`
or `"failed"`, `True` for `"processing"` with `retry_count <
MAX_RETRY_ATTEMPTS`, `False` for `"processing"` with `retry_count ≥
MAX_RETRY_ATTEMPTS`; and when the marker is completed,
`review_pr_pubsub` acknowledges and returns with no pipeline run and
hence no Analyzer call (empty effect list). -/
theorem c1_claim_gate (pr : Int) (sha : String) (m : Marker)
    (env : DeliveryEnv) (hg : env.gateReadFault = false) :
    ((m.status = "completed" →
        (check_and_claim_processing pr sha
          (some (BlobContent.valid m)) false).result = false)
    ∧ (m.status = "failed" →
        (check_and_claim_processing pr sha
          (some (BlobContent.valid m)) false).result = false)
    ∧ (m.status = "processing" → m.getRetryCount < MAX_RETRY_ATTEMPTS →
        (check_and_claim_processing pr sha
          (some (BlobContent.valid m)) false).result = true)
    ∧ (m.status = "processing" → m.getRetryCount ≥ MAX_RETRY_ATTEMPTS →
        (check_and_claim_processing pr sha
          (some (BlobContent.valid m)) false).result = false)
    ∧ (m.status = "completed" →
        review_pr_pubsub pr sha (some (BlobContent.valid m)) env =
          (HandlerOutcome.ackReturn, some (BlobContent.valid m), []))) := by
  refine ⟨?_, ?_, ?_, ?_, ?_⟩
  · intro h
    simp [check_and_claim_processing, h]
  · intro h
    simp [check_and_claim_processing, h]
  · intro h hlt
    simp [check_and_claim_processing, h, Nat.not_le.mpr hlt]
  · intro h hge
    simp [check_and_claim_processing, h, hge]
  · intro h
    simp [review_pr_pubsub, check_and_claim_processing, h, hg]

/-- Witness for C1: a completed marker is skipped and the handler does
nothing; a processing marker with one prior retry is allowed through. -/
theorem c1_witness :
    (check_and_claim_processing 7 "abc"
        (some (BlobContent.valid (completedMarker 7 "abc" "info" true)))
        false).result = false
    ∧ review_pr_pubsub 7 "abc"
        (some (BlobContent.valid (completedMarker 7 "abc" "info" true)))
        (⟨false, false, RunResult.noDiffs⟩ : DeliveryEnv) =
      (HandlerOutcome.ackReturn,
        some (BlobContent.valid (completedMarker 7 "abc" "info" true)), [])
    ∧ (check_and_claim_processing 7 "abc"
        (some (BlobContent.valid (retryProcessingMarker 7 "abc" 1 "e")))
        false).result = true :=
  ⟨(c1_claim_gate 7 "abc" (completedMarker 7 "abc" "info" true)
      ⟨false, false, RunResult.noDiffs⟩ rfl).1 rfl,
   (c1_claim_gate 7 "abc" (completedMarker 7 "abc" "info" true)
      ⟨false, false, RunResult.noDiffs⟩ rfl).2.2.2.2 rfl,
   (c1_claim_gate 7 "abc" (retryProcessingMarker 7 "abc" 1 "e")
      ⟨false, false, RunResult.noDiffs⟩ rfl).2.2.1 rfl (by decide)⟩

/-- C3: after a claim, a retryable failure makes
`update_marker_for_retry` increment the stored `retry_count` by one;
if the incremented count reaches `MAX_RETRY_ATTEMPTS` it overwrites
the marker with status `"failed"` and returns `False`, otherwise it
overwrites it with status `"processing"` and the truncated
`last_error` and returns `True`; in particular from `"processing"`
with `retry_count = MAX_RETRY_ATTEMPTS - 1` the write is `"failed"`
with `retry_count = MAX_RETRY_ATTEMPTS` and the result is `False`;
and `review_pr_pubsub` re-raises exactly when told `True` (else it
acknowledges). -/
theorem c3_retry_bookkeeping (pr : Int) (sha : String) (m : Marker)
    (msg : String) (hs : m.status = "processing")
    (hlt : m.getRetryCount < MAX_RETRY_ATTEMPTS) :
    (update_marker_for_retry pr sha (some (BlobContent.valid m)) false msg =
      if m.getRetryCount + 1 ≥ MAX_RETRY_ATTEMPTS then
        (false, some (BlobContent.valid
          (retryFailedMarker pr sha (m.getRetryCount + 1) msg)))
      else
        (true, some (BlobContent.valid
          (retryProcessingMarker pr sha (m.getRetryCount + 1) msg))))
    ∧ (retryProcessingMarker pr sha (m.getRetryCount + 1) msg).lastError
        = some (pySlice 500 msg)
    ∧ (retryFailedMarker pr sha (m.getRetryCount + 1) msg).lastError
        = some (pySlice 500 msg)
    ∧ (m.getRetryCount = MAX_RETRY_ATTEMPTS - 1 →
        update_marker_for_retry pr sha (some (BlobContent.valid m)) false msg
          = (false, some (BlobContent.valid
              (retryFailedMarker pr sha MAX_RETRY_ATTEMPTS msg))))
    ∧ (∀ excName excMsg : String,
        (review_pr_pubsub pr sha (some (BlobContent.valid m))
          (⟨false, false, RunResult.otherError excName excMsg⟩ :
            DeliveryEnv)).1 =
        (if (update_marker_for_retry pr sha (some (BlobContent.valid m))
              false (otherErrorMsg excName excMsg)).1
         then HandlerOutcome.reraise else HandlerOutcome.ackReturn)) := by
  refine ⟨rfl, rfl, rfl, ?_, ?_⟩
  · intro h2
    simp [update_marker_for_retry, h2, MAX_RETRY_ATTEMPTS]
  · intro excName excMsg
    simp [review_pr_pubsub, check_and_claim_processing, hs,
      Nat.not_le.mpr hlt]

/-- Witness for C3: Scenario C, a processing marker at
`retry_count = MAX_RETRY_ATTEMPTS - 1 = 2` whose run fails retryably
is overwritten to `failed` with `retry_count = 3` and the caller is
told to stop. -/
theorem c3_witness :
    update_marker_for_retry 7 "abc"
        (some (BlobContent.valid (retryProcessingMarker 7 "abc" 2 "e")))
        false "boom" =
      (false, some (BlobContent.valid
        (retryFailedMarker 7 "abc" MAX_RETRY_ATTEMPTS "boom")))
    ∧ (review_pr_pubsub 7 "abc"
        (some (BlobContent.valid (retryProcessingMarker 7 "abc" 1 "e")))
        (⟨false, false, RunResult.otherError "RuntimeError" "x"⟩ :
          DeliveryEnv)).1 =
      (if (update_marker_for_retry 7 "abc"
            (some (BlobContent.valid (retryProcessingMarker 7 "abc" 1 "e")))
            false (otherErrorMsg "RuntimeError" "x")).1
       then HandlerOutcome.reraise else HandlerOutcome.ackReturn) :=
  ⟨(c3_retry_bookkeeping 7 "abc" (retryProcessingMarker 7 "abc" 2 "e")
      "boom" rfl (by decide)).2.2.2.1 rfl,
   (c3_retry_bookkeeping 7 "abc" (retryProcessingMarker 7 "abc" 1 "e")
      "boom" rfl (by decide)).2.2.2.2 "RuntimeError" "x"⟩

theorem string_data_append (x y : String) :
    (x ++ y).data = x.data ++ y.data := by
  cases x
  cases y
  rfl

theorem string_append_cancel (a b s t : String)
    (h : a ++ s ++ b = a ++ t ++ b) : s = t := by
  have hd : a.data ++ s.data ++ b.data = a.data ++ t.data ++ b.data := by
    have := congrArg String.data h
    simpa [string_data_append] using this
  have hd2 : a.data ++ (s.data ++ b.data) = a.data ++ (t.data ++ b.data) := by
    simpa only [List.append_assoc] using hd
  have h1 : s.data ++ b.data = t.data ++ b.data :=
    List.append_cancel_left hd2
  have h2 : s.data = t.data := List.append_cancel_right h1
  cases s
  cases t
  exact congrArg String.mk h2

/-- C9: every component that touches markers builds the same blob key
`idempotency/pr-<pr_id>-<commit_sha>.json` for a WorkKey, and for a
fixed work id two different commit SHAs always give two distinct keys,
so the two versions are claimed independently. -/
theorem c9_marker_key (pr : Int) (sha1 sha2 : String) (hne : sha1 ≠ sha2) :
    markerKeyClaim pr sha1 = markerKeyCompleted pr sha1
    ∧ markerKeyClaim pr sha1 = markerKeyRetry pr sha1
    ∧ markerKeyClaim pr sha1 = markerKeyFailed pr sha1
    ∧ markerKeyClaim pr sha1 = markerKeyDlq pr sha1
    ∧ markerKeyClaim pr sha1 ≠ markerKeyClaim pr sha2 := by
  refine ⟨rfl, rfl, rfl, rfl, ?_⟩
  intro h
  exact hne (string_append_cancel
    ("idempotency/pr-" ++ toString pr ++ "-") ".json" sha1 sha2 h)

/-- Witness for C9: two commits of PR 12345 get distinct keys. -/
theorem c9_witness :
    markerKeyClaim 12345 "commit_a" = markerKeyDlq 12345 "commit_a"
    ∧ markerKeyClaim 12345 "commit_a" ≠ markerKeyClaim 12345 "commit_b" :=
  ⟨(c9_marker_key 12345 "commit_a" "commit_b" (by decide)).2.2.2.1,
   (c9_marker_key 12345 "commit_a" "commit_b" (by decide)).2.2.2.2⟩

theorem dlqRunLoop_cons (d : Bool) (m : DlqMsg) (ms : List DlqMsg) :
    dlqRunLoop d (m :: ms) =
      DlqState.comb (dlqStepDelta d m) (dlqRunLoop d ms) := rfl

theorem dlqStepDelta_dry (m : DlqMsg) :
    (dlqStepDelta true m).deletedKeys = []
    ∧ (dlqStepDelta true m).published = []
    ∧ (dlqStepDelta true m).republished =
        (if m.decodeOk && pyTruthyInt m.prId then 1 else 0) := by
  rcases m with ⟨dok, pid, sha, ack, mid, mex, pres⟩
  cases dok with
  | false => simp [dlqStepDelta, DlqState.empty, pyTruthyInt]
  | true =>
    cases pid with
    | none => simp [dlqStepDelta, DlqState.empty, pyTruthyInt]
    | some v =>
      by_cases h0 : v = 0
      · simp [dlqStepDelta, DlqState.empty, pyTruthyInt, h0]
      · simp [dlqStepDelta, DlqState.empty, pyTruthyInt, h0]

theorem dlqStepDelta_dry_details (m : DlqMsg) (pid : Int)
    (hd : m.decodeOk = true) (hp : m.prId = some pid) (h0 : pid ≠ 0) :
    (dlqStepDelta true m).details =
      [DlqDetail.dryRunEntry pid (sha8 m.commitSha)] := by
  simp [dlqStepDelta, hd, hp, h0, DlqState.empty]

/-- C8: a dead-letter reconciliation run with `dry_run=true` performs
no mutation: each decodable message carrying a truthy `pr_id` only
gets a "would republish" detail entry and is counted as republished,
while zero idempotency markers are deleted, zero messages are
republished to the main topic, and zero acknowledgements are sent to
the dead-letter subscription. -/
theorem c8_dry_run_no_mutation (msgs : List DlqMsg) :
    dlqAckedIds true msgs = []
    ∧ (dlqRunLoop true msgs).deletedKeys = []
    ∧ (dlqRunLoop true msgs).published = []
    ∧ (dlqRunLoop true msgs).republished =
        (msgs.filter (fun m => m.decodeOk && pyTruthyInt m.prId)).length
    ∧ ∀ m ∈ msgs, ∀ pid : Int, m.decodeOk = true → m.prId = some pid →
        pid ≠ 0 →
        DlqDetail.dryRunEntry pid (sha8 m.commitSha) ∈
          (dlqRunLoop true msgs).details := by
  refine ⟨by simp [dlqAckedIds], ?_, ?_, ?_, ?_⟩
  · induction msgs with
    | nil => rfl
    | cons m ms ih =>
      simp [dlqRunLoop_cons, DlqState.comb, (dlqStepDelta_dry m).1, ih]
  · induction msgs with
    | nil => rfl
    | cons m ms ih =>
      simp [dlqRunLoop_cons, DlqState.comb, (dlqStepDelta_dry m).2.1, ih]
  · induction msgs with
    | nil => rfl
    | cons m ms ih =>
      rw [dlqRunLoop_cons]
      show (dlqStepDelta true m).republished + (dlqRunLoop true ms).republished
        = _
      rw [(dlqStepDelta_dry m).2.2, ih, List.filter_cons]
      by_cases h : (m.decodeOk && pyTruthyInt m.prId) = true
      · simp [h, Nat.add_comm]
      · simp [h]
  · induction msgs with
    | nil => intro m hm; exact absurd hm (List.not_mem_nil m)
    | cons m ms ih =>
      intro m2 hm2 pid hd hp h0
      rw [dlqRunLoop_cons]
      show _ ∈ (dlqStepDelta true m).details ++ (dlqRunLoop true ms).details
      rcases List.mem_cons.mp hm2 with heq | hmem
      · subst heq
        rw [dlqStepDelta_dry_details m2 pid hd hp h0]
        exact List.mem_append_left _ (List.mem_singleton.mpr rfl)
      · exact List.mem_append_right _ (ih m2 hmem pid hd hp h0)

/-- Witness for C8: a single-message dry run reports one "would
republish" entry, zero deletes, zero publishes, zero acks. -/
theorem c8_witness :
    dlqAckedIds true
        [⟨true, some 5, some "commitsha1", "ack1", "mid1", true, none⟩] = []
    ∧ (dlqRunLoop true
        [⟨true, some 5, some "commitsha1", "ack1", "mid1", true, none⟩]
        ).deletedKeys = []
    ∧ DlqDetail.dryRunEntry 5 (sha8 (some "commitsha1")) ∈
        (dlqRunLoop true
          [⟨true, some 5, some "commitsha1", "ack1", "mid1", true, none⟩]
          ).details :=
  ⟨(c8_dry_run_no_mutation
      [⟨true, some 5, some "commitsha1", "ack1", "mid1", true, none⟩]).1,
   (c8_dry_run_no_mutation
      [⟨true, some 5, some "commitsha1", "ack1", "mid1", true, none⟩]).2.1,
   (c8_dry_run_no_mutation
      [⟨true, some 5, some "commitsha1", "ack1", "mid1", true, none⟩]).2.2.2.2
      _ (List.mem_singleton.mpr rfl) 5 rfl rfl (by decide)⟩

theorem rcMono_refl (a : Option Nat) : rcMono a a = true := by
  cases a <;> simp [rcMono]

theorem rcMono_none_right (a : Option Nat) : rcMono a none = true := by
  cases a <;> simp [rcMono]

/-- Retry-count discipline a marker written by the guarded system obeys:
the count (0 when the field is absent) never exceeds the ceiling, and a
`processing` marker is strictly below it. -/
def boundedMarker (m : Marker) : Prop :=
  m.getRetryCount ≤ MAX_RETRY_ATTEMPTS
  ∧ (m.status = "processing" → m.getRetryCount < MAX_RETRY_ATTEMPTS)

def boundedStore : Store → Prop
  | some (BlobContent.valid m) => boundedMarker m
  | _ => True

/-- No storage read fault occurs during any delivery of the sequence. -/
def faultFree (envs : List DeliveryEnv) : Prop :=
  ∀ e ∈ envs, e.gateReadFault = false ∧ e.retryReadFault = false

theorem update_retry_eq_cases (pr : Int) (sha : String) (m : Marker)
    (msg : String) :
    update_marker_for_retry pr sha (some (BlobContent.valid m)) false msg =
      if MAX_RETRY_ATTEMPTS ≤ m.getRetryCount + 1 then
        (false, some (BlobContent.valid
          (retryFailedMarker pr sha (m.getRetryCount + 1) msg)))
      else
        (true, some (BlobContent.valid
          (retryProcessingMarker pr sha (m.getRetryCount + 1) msg))) := rfl

theorem update_retry_bounded (pr : Int) (sha : String) (m : Marker)
    (msg : String) (hlt : m.getRetryCount < MAX_RETRY_ATTEMPTS) :
    boundedStore
      (update_marker_for_retry pr sha
        (some (BlobContent.valid m)) false msg).2 := by
  have hlt3 : m.retryCount.getD 0 < 3 := hlt
  rw [update_retry_eq_cases]
  by_cases hcond : MAX_RETRY_ATTEMPTS ≤ m.getRetryCount + 1
  · rw [if_pos hcond]
    simp only [boundedStore, boundedMarker, retryFailedMarker,
      Marker.getRetryCount, Option.getD_some, MAX_RETRY_ATTEMPTS]
    constructor
    · omega
    · intro habs
      exact absurd habs (by decide)
  · rw [if_neg hcond]
    have hlt2 : m.retryCount.getD 0 + 1 < 3 := Nat.lt_of_not_le hcond
    simp only [boundedStore, boundedMarker, retryProcessingMarker,
      Marker.getRetryCount, Option.getD_some, MAX_RETRY_ATTEMPTS]
    exact ⟨by omega, fun _ => hlt2⟩

theorem update_retry_mono (pr : Int) (sha : String) (m : Marker)
    (msg : String) :
    rcMono (storedRetryCount (some (BlobContent.valid m)))
      (storedRetryCount
        (update_marker_for_retry pr sha
          (some (BlobContent.valid m)) false msg).2) = true := by
  rw [update_retry_eq_cases]
  by_cases hcond : MAX_RETRY_ATTEMPTS ≤ m.getRetryCount + 1
  · rw [if_pos hcond]
    cases hmr : m.retryCount with
    | none => simp [storedRetryCount, rcMono, hmr]
    | some a =>
      simp [storedRetryCount, retryFailedMarker, rcMono,
        Marker.getRetryCount, hmr, Nat.le_succ]
  · rw [if_neg hcond]
    cases hmr : m.retryCount with
    | none => simp [storedRetryCount, rcMono, hmr]
    | some a =>
      simp [storedRetryCount, retryProcessingMarker, rcMono,
        Marker.getRetryCount, hmr, Nat.le_succ]

theorem delivery_fault_free_step (pr : Int) (sha : String) (s : Store)
    (e : DeliveryEnv) (hg : e.gateReadFault = false)
    (hr : e.retryReadFault = false) (hb : boundedStore s) :
    boundedStore (deliveryStore pr sha s e)
    ∧ rcMono (storedRetryCount s)
        (storedRetryCount (deliveryStore pr sha s e)) = true := by
  obtain ⟨gf, rf, run⟩ := e
  have hgf : gf = false := hg
  have hrf : rf = false := hr
  subst hgf
  subst hrf
  cases s with
  | none =>
    cases run with
    | noDiffs =>
      exact ⟨by simp [deliveryStore, review_pr_pubsub,
        check_and_claim_processing, claimCreatePhase, createIfAbsent,
        update_marker_completed, boundedStore, boundedMarker,
        completedMarker, Marker.getRetryCount, MAX_RETRY_ATTEMPTS], by
        simp [storedRetryCount, rcMono]⟩
    | success sev c =>
      exact ⟨by simp [deliveryStore, review_pr_pubsub,
        check_and_claim_processing, claimCreatePhase, createIfAbsent,
        update_marker_completed, boundedStore, boundedMarker,
        completedMarker, Marker.getRetryCount, MAX_RETRY_ATTEMPTS], by
        simp [storedRetryCount, rcMono]⟩
    | httpError code =>
      by_cases hc : nonRetryableCode code = true
      · exact ⟨by simp [deliveryStore, review_pr_pubsub,
          check_and_claim_processing, claimCreatePhase, createIfAbsent,
          update_marker_failed, hc, boundedStore, boundedMarker,
          nonRetryableFailedMarker, Marker.getRetryCount,
          MAX_RETRY_ATTEMPTS], by simp [storedRetryCount, rcMono]⟩
      · exact ⟨by simp [deliveryStore, review_pr_pubsub,
          check_and_claim_processing, claimCreatePhase, createIfAbsent,
          update_marker_for_retry, hc, boundedStore, boundedMarker,
          retryProcessingMarker, initialMarker, Marker.getRetryCount,
          MAX_RETRY_ATTEMPTS], by simp [storedRetryCount, rcMono]⟩
    | otherError excName excMsg =>
      exact ⟨by simp [deliveryStore, review_pr_pubsub,
        check_and_claim_processing, claimCreatePhase, createIfAbsent,
        update_marker_for_retry, boundedStore, boundedMarker,
        retryProcessingMarker, initialMarker, Marker.getRetryCount,
        MAX_RETRY_ATTEMPTS], by simp [storedRetryCount, rcMono]⟩
  | some content =>
    cases content with
    | invalid =>
      exact ⟨by simp [deliveryStore, review_pr_pubsub,
        check_and_claim_processing, claimCreatePhase, createIfAbsent,
        boundedStore], by
        simp [deliveryStore, review_pr_pubsub, check_and_claim_processing,
          claimCreatePhase, createIfAbsent, storedRetryCount, rcMono]⟩
    | valid m =>
      have hbm : boundedMarker m := hb
      by_cases hcst : m.status = "completed"
      · constructor
        · simpa [deliveryStore, review_pr_pubsub,
            check_and_claim_processing, hcst, boundedStore] using hbm
        · simp [deliveryStore, review_pr_pubsub,
            check_and_claim_processing, hcst, rcMono_refl]
      · by_cases hfst : m.status = "failed"
        · constructor
          · simpa [deliveryStore, review_pr_pubsub,
              check_and_claim_processing, hcst, hfst, boundedStore]
              using hbm
          · simp [deliveryStore, review_pr_pubsub,
              check_and_claim_processing, hcst, hfst, rcMono_refl]
        · by_cases hpst : m.status = "processing"
          · by_cases hge : m.getRetryCount ≥ MAX_RETRY_ATTEMPTS
            · constructor
              · simpa [deliveryStore, review_pr_pubsub,
                  check_and_claim_processing, hcst, hfst, hpst, hge,
                  boundedStore] using hbm
              · simp [deliveryStore, review_pr_pubsub,
                  check_and_claim_processing, hcst, hfst, hpst, hge,
                  rcMono_refl]
            · have hlt : m.getRetryCount < MAX_RETRY_ATTEMPTS :=
                Nat.lt_of_not_le hge
              have hge2 : ¬ (3 ≤ m.retryCount.getD 0) := by
                simpa [Marker.getRetryCount, MAX_RETRY_ATTEMPTS] using hge
              cases run with
              | noDiffs =>
                exact ⟨by simp [deliveryStore, review_pr_pubsub,
                  check_and_claim_processing, hcst, hfst, hpst, hge, hge2,
                  update_marker_completed, boundedStore, boundedMarker,
                  completedMarker, Marker.getRetryCount,
                  MAX_RETRY_ATTEMPTS], by
                  simp [deliveryStore, review_pr_pubsub,
                    check_and_claim_processing, hcst, hfst, hpst, hge, hge2,
                    update_marker_completed, storedRetryCount,
                    completedMarker, rcMono_none_right]⟩
              | success sev c =>
                exact ⟨by simp [deliveryStore, review_pr_pubsub,
                  check_and_claim_processing, hcst, hfst, hpst, hge, hge2,
                  update_marker_completed, boundedStore, boundedMarker,
                  completedMarker, Marker.getRetryCount,
                  MAX_RETRY_ATTEMPTS], by
                  simp [deliveryStore, review_pr_pubsub,
                    check_and_claim_processing, hcst, hfst, hpst, hge, hge2,
                    update_marker_completed, storedRetryCount,
                    completedMarker, rcMono_none_right]⟩
              | httpError code =>
                by_cases hc : nonRetryableCode code = true
                · exact ⟨by simp [deliveryStore, review_pr_pubsub,
                    check_and_claim_processing, hcst, hfst, hpst, hge, hge2, hc,
                    update_marker_failed, boundedStore, boundedMarker,
                    nonRetryableFailedMarker, Marker.getRetryCount,
                    MAX_RETRY_ATTEMPTS], by
                    simp [deliveryStore, review_pr_pubsub,
                      check_and_claim_processing, hcst, hfst, hpst, hge, hge2,
                      hc, update_marker_failed, storedRetryCount,
                      nonRetryableFailedMarker, rcMono_none_right]⟩
                · have heq : deliveryStore pr sha
                      (some (BlobContent.valid m))
                      ⟨false, false, RunResult.httpError code⟩ =
                      (update_marker_for_retry pr sha
                        (some (BlobContent.valid m)) false
                        (httpErrorMsg code)).2 := by
                    simp [deliveryStore, review_pr_pubsub,
                      check_and_claim_processing, hcst, hfst, hpst, hge, hc]
                  refine ⟨?_, ?_⟩
                  · rw [heq]
                    exact update_retry_bounded pr sha m _
                      (Nat.lt_of_not_le hge)
                  · rw [heq]
                    exact update_retry_mono pr sha m _
              | otherError excName excMsg =>
                have heq : deliveryStore pr sha
                    (some (BlobContent.valid m))
                    ⟨false, false, RunResult.otherError excName excMsg⟩ =
                    (update_marker_for_retry pr sha
                      (some (BlobContent.valid m)) false
                      (otherErrorMsg excName excMsg)).2 := by
                  simp [deliveryStore, review_pr_pubsub,
                    check_and_claim_processing, hcst, hfst, hpst, hge]
                refine ⟨?_, ?_⟩
                · rw [heq]
                  exact update_retry_bounded pr sha m _
                    (Nat.lt_of_not_le hge)
                · rw [heq]
                  exact update_retry_mono pr sha m _
          · constructor
            · simpa [deliveryStore, review_pr_pubsub,
                check_and_claim_processing, hcst, hfst, hpst,
                claimCreatePhase, createIfAbsent, boundedStore] using hbm
            · simp [deliveryStore, review_pr_pubsub,
                check_and_claim_processing, hcst, hfst, hpst,
                claimCreatePhase, createIfAbsent, rcMono_refl]

theorem traceStores_head (pr : Int) (sha : String) (s : Store)
    (envs : List DeliveryEnv) :
    (traceStores pr sha s envs).head? = some s := by
  cases envs <;> rfl

theorem trace_fault_free_aux (pr : Int) (sha : String)
    (envs : List DeliveryEnv) :
    ∀ s : Store, boundedStore s → faultFree envs →
      List.Chain' (fun a b => rcMono a b = true)
        ((traceStores pr sha s envs).map storedRetryCount)
      ∧ ∀ t ∈ traceStores pr sha s envs, boundedStore t := by
  induction envs with
  | nil =>
    intro s hs _
    refine ⟨by simp [traceStores], ?_⟩
    intro t ht
    simp [traceStores] at ht
    subst ht
    exact hs
  | cons e es ih =>
    intro s hs h
    have he := h e (List.mem_cons_self e es)
    have hstep := delivery_fault_free_step pr sha s e he.1 he.2 hs
    have hrest := ih (deliveryStore pr sha s e) hstep.1
      (fun e2 he2 => h e2 (List.mem_cons_of_mem e he2))
    constructor
    · rw [traceStores, List.map_cons]
      refine List.chain'_cons'.mpr ⟨?_, hrest.1⟩
      intro y hy
      rw [List.head?_map, traceStores_head] at hy
      simp only [Option.map_some, Option.map_some', Option.mem_def,
        Option.some.injEq] at hy
      subst hy
      exact hstep.2
    · intro t ht
      rw [traceStores] at ht
      rcases List.mem_cons.mp ht with rfl | ht2
      · exact hs
      · exact hrest.2 t ht2

/-- C5 counterexample: `retry_count` can decrease between consecutive
writes of one marker lifetime.  Starting from no marker, two retryable
failures bring the stored count to 2; a third delivery whose marker
read inside `update_marker_for_retry` hits a transient storage fault
restarts the count at 0 and writes `retry_count = 1`, so the stored
sequence of counts is `0/1, 2, 1` — not monotone. -/
theorem c5_counterexample :
    ¬ List.Chain' (fun a b => rcMono a b = true)
      ((traceStores 1 "a" none
        [⟨false, false, RunResult.otherError "E" "x"⟩,
         ⟨false, false, RunResult.otherError "E" "x"⟩,
         ⟨false, true, RunResult.otherError "E" "x"⟩]).map
        storedRetryCount) := by
  have h : (traceStores 1 "a" none
      [⟨false, false, RunResult.otherError "E" "x"⟩,
       ⟨false, false, RunResult.otherError "E" "x"⟩,
       ⟨false, true, RunResult.otherError "E" "x"⟩]).map storedRetryCount
      = [none, some 1, some 2, some 1] := rfl
  rw [h]
  intro hch
  have h3 :=
    (List.chain'_cons.mp ((List.chain'_cons.mp
      ((List.chain'_cons.mp hch).2)).2)).1
  simp [rcMono] at h3

/-- C5 amended: in every marker lifetime in which all marker reads
succeed (no storage read faults), the stored `retry_count` — a `Nat`,
hence non-negative — never decreases from one write to the next, and
every stored marker keeps `retry_count ≤ MAX_RETRY_ATTEMPTS`; in
particular a marker failed for retry exhaustion never exceeds the
ceiling. -/
theorem c5_retry_count_monotone (pr : Int) (sha : String)
    (envs : List DeliveryEnv) (h : faultFree envs) :
    List.Chain' (fun a b => rcMono a b = true)
      ((traceStores pr sha none envs).map storedRetryCount)
    ∧ ∀ t ∈ traceStores pr sha none envs, ∀ m : Marker,
        t = some (BlobContent.valid m) →
        m.getRetryCount ≤ MAX_RETRY_ATTEMPTS := by
  have haux := trace_fault_free_aux pr sha envs none trivial h
  refine ⟨haux.1, ?_⟩
  intro t ht m hm
  have hbt := haux.2 t ht
  rw [hm] at hbt
  exact hbt.1

/-- Witness for C5 amended: a fault-free two-delivery lifetime (one
retryable failure, then success). -/
theorem c5_witness :
    faultFree [⟨false, false, RunResult.otherError "E" "x"⟩,
      ⟨false, false, RunResult.success "info" true⟩]
    ∧ List.Chain' (fun a b => rcMono a b = true)
      ((traceStores 1 "a" none
        [⟨false, false, RunResult.otherError "E" "x"⟩,
         ⟨false, false, RunResult.success "info" true⟩]).map
        storedRetryCount) :=
  ⟨by intro e he; fin_cases he <;> exact ⟨rfl, rfl⟩,
   (c5_retry_count_monotone 1 "a"
      [⟨false, false, RunResult.otherError "E" "x"⟩,
       ⟨false, false, RunResult.success "info" true⟩]
      (by intro e he; fin_cases he <;> exact ⟨rfl, rfl⟩)).1⟩

end PrReviewer





